import Mathlib

/-!
Verification of the QR-code provisioning service (`src/index.js`).

The service is an Express app with a job queue: `POST /generateQR` enqueues
up to `MAX_QR_COUNT` generation jobs; a worker callback renders a QR image,
uploads it to Cloudinary and persists a record; `POST /activate` binds
identity fields to a record; `GET /generateQR` lists records with pagination.

The embedding below translates the JavaScript directly:
- JavaScript numbers that are used as integers become `Int`;
- a possibly-absent request field becomes an `Option`;
- the Mongo collection behind `QRCodeModel` becomes a `List QRCodeDoc`
  in insertion order (Mongo's natural order for this workload);
- a promise that can reject becomes `Except String`;
- `console.log` output is collected in a list.
-/

namespace QRPay

/-- `MAX_QR_COUNT` from `index.js`. -/
def MAX_QR_COUNT : Int := 100

/-- JavaScript `x || d` for a possibly-absent integer `x`: `undefined`,
`NaN` (both modelled as `none`) and `0` are falsy, every other integer is
truthy.  This is the semantics of `req.body.count || 1` and
`parseInt(req.query.page) || 1`. -/
def jsOrInt : Option Int → Int → Int
  | none, d => d
  | some n, d => if n = 0 then d else n

/-- One queued generation job.  `qrQueue.add({})` enqueues an empty object;
the job carries no data (`src/queue.js` is not under `src/`; per the Job
Queue contract every `enqueue()` call yields exactly one independent unit
of work, appended FIFO). -/
abbrev Job := Unit

/-- The loop `for (let i = 0; i < count; i++) await qrQueue.add({});`
appends one job per iteration. -/
def addJobs (q : List Job) : Nat → List Job
  | 0 => q
  | n + 1 => addJobs (q ++ [()]) n

/-- `POST /generateQR`: clamp the requested count, enqueue that many jobs,
respond with the message immediately.  Returns the new queue and the
response message.  The loop guard `i < count` runs `count.toNat` times
(zero times when `count` is negative). -/
def generateQR (q : List Job) (body_count : Option Int) : List Job × String :=
  let count := min (jsOrInt body_count 1) MAX_QR_COUNT
  (addJobs q count.toNat, toString count ++ " QR Code(s) generation in process")

/-- A document of the `QRCode` Mongo collection (`qrSchema`). -/
structure QRCodeDoc where
  uuid : String
  s3URL : String
  firstName : String
  lastName : String
  accountNumber : String
  isActivated : Bool
  deriving Repr, DecidableEq

/-- `new QRCodeModel({ uuid, s3URL })`: the schema defaults leave the
identity fields empty and `isActivated` false. -/
def newQRCodeModel (uuid s3URL : String) : QRCodeDoc :=
  { uuid := uuid
    s3URL := s3URL
    firstName := ""
    lastName := ""
    accountNumber := ""
    isActivated := false }

/-- The environment a single queue job runs in: the uuid minted by
`uuidv4()`, and the outcomes of the three awaited effects
(`generateCustomQRCode`, `uploadToCloudinary`, `qrEntry.save()`).
The rendered image buffer is kept opaque as a `String`. -/
structure JobEnv where
  freshUuid : String
  renderResult : Except String String
  uploadResult : String → Except String String
  saveOk : Bool
  deriving Inhabited

/-- Outcome of one run of the `qrQueue.process` callback. -/
structure JobOutcome where
  store : List QRCodeDoc
  resolvedValue : Option (String × String)
  rejectedWith : Option String
  consoleLog : List String
  deriving Repr, DecidableEq

/-- The `try` block of the `qrQueue.process` callback: render, upload,
build the document, save, and return `{ uuid, s3URL }`.  Any failing await
aborts the block with that error; the document is only saved after a
successful upload. -/
def processTry (env : JobEnv) (store : List QRCodeDoc) :
    List QRCodeDoc × Except String (String × String) :=
  match env.renderResult with
  | .error e => (store, .error e)
  | .ok buffer =>
    match env.uploadResult buffer with
    | .error e => (store, .error e)
    | .ok cloudinaryLink =>
      if env.saveOk then
        (store ++ [newQRCodeModel env.freshUuid cloudinaryLink],
          .ok (env.freshUuid, cloudinaryLink))
      else (store, .error "PersistenceError")

/-- The whole `qrQueue.process` callback.  The `catch` clause
`console.log(error)` swallows the error: the job's promise resolves with
`undefined` (`resolvedValue = none`, `rejectedWith = none`), and the only
trace is the console line. -/
def processJob (env : JobEnv) (store : List QRCodeDoc) : JobOutcome :=
  match processTry env store with
  | (store2, .ok r) =>
    { store := store2
      resolvedValue := some r
      rejectedWith := none
      consoleLog := [] }
  | (store2, .error e) =>
    { store := store2
      resolvedValue := none
      rejectedWith := none
      consoleLog := [e] }

/-- `QRCodeModel.findOne({ uuid: id })`: first document whose `uuid`
matches, in natural order. -/
def findOneByUuid (store : List QRCodeDoc) (id : String) : Option QRCodeDoc :=
  store.find? (fun r => r.uuid = id)

/-- The update applied by `qrModel.updateOne({ isActivated: true,
firstName, lastName, accountNumber })` to the found document: the four
listed fields are set, `uuid` and `s3URL` are untouched. -/
def applyActivation (r : QRCodeDoc) (firstName lastName accountNumber : String) :
    QRCodeDoc :=
  { r with
    isActivated := true
    firstName := firstName
    lastName := lastName
    accountNumber := accountNumber }

/-- Update the first document matching `uuid = id` (the one `findOne`
returned), leaving all others unchanged. -/
def updateFirst (id firstName lastName accountNumber : String) :
    List QRCodeDoc → List QRCodeDoc
  | [] => []
  | r :: rs =>
    if r.uuid = id then applyActivation r firstName lastName accountNumber :: rs
    else r :: updateFirst id firstName lastName accountNumber rs

/-- HTTP responses of `POST /activate`. -/
inductive ActivateResponse where
  | badRequest
  | notFound
  | success
  deriving Repr, DecidableEq

/-- `POST /activate`.  A missing field arrives as `undefined` and an empty
string is equally falsy under `!field`, so both are modelled as `""`.
Returns the store after the request and the response. -/
def activate (store : List QRCodeDoc) (id firstName lastName accountNumber : String) :
    List QRCodeDoc × ActivateResponse :=
  if id = "" ∨ firstName = "" ∨ lastName = "" ∨ accountNumber = "" then
    (store, .badRequest)
  else
    match findOneByUuid store id with
    | none => (store, .notFound)
    | some _ => (updateFirst id firstName lastName accountNumber store, .success)

/-- The pagination parameters computed by `GET /generateQR`
(lines 151-153): `page`, `limit` and `skip = (page - 1) * limit`. -/
def listParams (qpage qlimit : Option Int) : Int × Int × Int :=
  let page := jsOrInt qpage 1
  let limit := jsOrInt qlimit 10
  (page, limit, (page - 1) * limit)

/-- JavaScript `Math.ceil(a / b)` for integers `a`, `b` with `b ≠ 0`
(float division then ceiling): the ceiling of the rational `a / b`. -/
def jsCeilDiv (a b : Int) : Int := -(Int.fdiv (-a) b)

/-- `GET /generateQR`: the response fields `(currentPage, totalDocs,
totalPages, qr)`.  `.skip(skip).limit(limit)` is `drop`/`take` on the
natural order (for the non-negative values Mongo accepts). -/
def listQR (store : List QRCodeDoc) (qpage qlimit : Option Int) :
    Int × Int × Int × List QRCodeDoc :=
  let p := listParams qpage qlimit
  (p.1, store.length, jsCeilDiv store.length p.2.1,
    (store.drop p.2.2.toNat).take p.2.1.toNat)

/-- The operations that mutate the `QRCode` collection: a worker job
persisting a fresh document (which, per `processTry`, happens only with
the full render/upload pipeline succeeded), an `/activate` request, and
`DELETE /qrCodes` (`deleteMany({})`). -/
inductive StoreOp where
  | createDoc (uuid s3URL : String)
  | activateReq (id firstName lastName accountNumber : String)
  | deleteAll
  deriving Repr, DecidableEq

/-- Apply one operation to the collection. -/
def applyOp (store : List QRCodeDoc) : StoreOp → List QRCodeDoc
  | .createDoc uuid s3URL => store ++ [newQRCodeModel uuid s3URL]
  | .activateReq id fn ln an => (activate store id fn ln an).1
  | .deleteAll => []

/-- The collection reached from empty by a sequence of operations. -/
def runOps (ops : List StoreOp) : List QRCodeDoc :=
  ops.foldl applyOp []

/-- The identity-binding invariant: the three identity fields are all
empty exactly when the document is not activated. -/
def identityInvariant (r : QRCodeDoc) : Prop :=
  (r.firstName = "" ∧ r.lastName = "" ∧ r.accountNumber = "") ↔ r.isActivated = false

/-- A concrete 25-document collection, used to instantiate the pagination
theorem. -/
def sampleStore25 : List QRCodeDoc :=
  (List.range 25).map (fun i => newQRCodeModel (toString i) "url")

/-- Each iteration of the enqueue loop adds exactly one job. -/
theorem addJobs_length (n : Nat) : ∀ q : List Job, (addJobs q n).length = q.length + n := by
  induction n with
  | zero => intro q; simp [addJobs]
  | succ k ih =>
    intro q
    rw [addJobs, ih]
    simp
    omega

/-- C1: a `POST /generateQR` request with integer `count` in [1,100]
enqueues exactly `count` jobs, with `count > 100` exactly 100 jobs, and
with `count` absent exactly 1 job. -/
theorem generateQR_enqueues_clamped_count (q : List Job) (c : Int) :
    (1 ≤ c → c ≤ 100 → ((generateQR q (some c)).1).length = q.length + c.toNat)
    ∧ (100 < c → ((generateQR q (some c)).1).length = q.length + 100)
    ∧ ((generateQR q none).1).length = q.length + 1 := by
  refine ⟨?_, ?_, ?_⟩
  · intro h1 h2
    have hc : ¬(c = 0) := by omega
    have hmin : min c MAX_QR_COUNT = c := min_eq_left (by simpa [MAX_QR_COUNT] using h2)
    simp [generateQR, jsOrInt, hc, hmin, addJobs_length]
  · intro h
    have hc : ¬(c = 0) := by omega
    have hmin : min c MAX_QR_COUNT = 100 := by
      simp [MAX_QR_COUNT]
      omega
    simp [generateQR, jsOrInt, hc, hmin, addJobs_length]
  · simp [generateQR, jsOrInt, MAX_QR_COUNT, addJobs_length]

/-- Witness for C1, at counts 42, 150 and absent. -/
theorem generateQR_enqueues_clamped_count_witness :
    ((generateQR [] (some 42)).1).length = List.length ([] : List Job) + Int.toNat 42
    ∧ ((generateQR [] (some 150)).1).length = List.length ([] : List Job) + 100
    ∧ ((generateQR [] none).1).length = List.length ([] : List Job) + 1 :=
  ⟨(generateQR_enqueues_clamped_count [] 42).1 (by decide) (by decide),
   (generateQR_enqueues_clamped_count [] 150).2.1 (by decide),
   (generateQR_enqueues_clamped_count [] 42).2.2⟩

/-- C10: `count = 0` is falsy in `req.body.count || 1`, so exactly one job
is enqueued; a negative `count` survives `||` and `min`, the loop body
never runs (zero jobs), and the response still reports `count` pending
generations. -/
theorem generateQR_zero_and_negative_count (q : List Job) (c : Int) (h : c < 0) :
    ((generateQR q (some 0)).1).length = q.length + 1
    ∧ ((generateQR q (some c)).1).length = q.length
    ∧ (generateQR q (some c)).2 = toString c ++ " QR Code(s) generation in process" := by
  have hc : ¬(c = 0) := by omega
  have hmin : min c MAX_QR_COUNT = c := min_eq_left (by simp [MAX_QR_COUNT]; omega)
  have htn : c.toNat = 0 := Int.toNat_of_nonpos (le_of_lt h)
  refine ⟨?_, ?_, ?_⟩
  · simp [generateQR, jsOrInt, MAX_QR_COUNT, addJobs_length]
  · simp [generateQR, jsOrInt, hc, hmin, htn, addJobs_length]
  · simp [generateQR, jsOrInt, hc, hmin]

/-- Witness for C10, at count -5. -/
theorem generateQR_zero_and_negative_count_witness :
    ((generateQR [] (some 0)).1).length = List.length ([] : List Job) + 1
    ∧ ((generateQR [] (some (-5))).1).length = List.length ([] : List Job)
    ∧ (generateQR [] (some (-5))).2
        = toString (-5 : Int) ++ " QR Code(s) generation in process" :=
  generateQR_zero_and_negative_count [] (-5) (by decide)

/-- C7 counterexample: with `page=-5` in the query string,
`parseInt("-5") || 1` keeps -5 (only `NaN` and `0` are falsy), so the page
is not defaulted to 1 and the skip passed to the query is -60 < 0. -/
theorem listParams_negative_page_counterexample :
    (listParams (some (-5)) none).1 = -5
    ∧ (listParams (some (-5)) none).2.2 = -60
    ∧ (listParams (some (-5)) none).2.2 < 0 := by decide

/-- C7 amended: `page` and `limit` default to 1 and 10 when the query
parameter is absent, non-numeric (`parseInt` gives `NaN`) or zero; any
non-zero supplied value — negative values included — is used as-is, and
`skip = (page - 1) * limit`, so skip and limit can be negative. -/
theorem listParams_defaults_amended (qp ql : Option Int) (p l : Int)
    (hp : p ≠ 0) (hl : l ≠ 0) :
    (listParams none ql).1 = 1
    ∧ (listParams (some 0) ql).1 = 1
    ∧ (listParams qp none).2.1 = 10
    ∧ (listParams qp (some 0)).2.1 = 10
    ∧ (listParams (some p) ql).1 = p
    ∧ (listParams qp (some l)).2.1 = l
    ∧ (listParams qp ql).2.2 = ((listParams qp ql).1 - 1) * (listParams qp ql).2.1 := by
  simp [listParams, jsOrInt, hp, hl]

/-- Witness for the amended C7, with `page=2`, `limit=3` and pass-through
values -5 and 7. -/
theorem listParams_defaults_amended_witness :
    (listParams none (some 3)).1 = 1
    ∧ (listParams (some 0) (some 3)).1 = 1
    ∧ (listParams (some 2) none).2.1 = 10
    ∧ (listParams (some 2) (some 0)).2.1 = 10
    ∧ (listParams (some (-5)) (some 3)).1 = -5
    ∧ (listParams (some 2) (some 7)).2.1 = 7
    ∧ (listParams (some 2) (some 3)).2.2
        = ((listParams (some 2) (some 3)).1 - 1) * (listParams (some 2) (some 3)).2.1 :=
  listParams_defaults_amended (some 2) (some 3) (-5) 7 (by decide) (by decide)

/-- C8: over a 25-document collection, `GET /generateQR?page=2&limit=10`
returns documents 11-20 in natural order, `totalDocs = 25` and
`totalPages = ceil(25/10) = 3`. -/
theorem listQR_page2_limit10_of_25 (store : List QRCodeDoc)
    (h : store.length = 25) :
    listQR store (some 2) (some 10) = (2, 25, 3, (store.drop 10).take 10) := by
  simp [listQR, listParams, jsOrInt, jsCeilDiv, h]

/-- Witness for C8 on a concrete 25-document collection. -/
theorem listQR_page2_limit10_of_25_witness :
    listQR sampleStore25 (some 2) (some 10)
      = (2, 25, 3, (sampleStore25.drop 10).take 10) :=
  listQR_page2_limit10_of_25 sampleStore25 (by decide)

/-- C2: when the Cloudinary upload rejects, the `await` throws before
`qrEntry.save()` is reached, so the collection is unchanged — no partial
document is persisted. -/
theorem upload_failure_persists_no_record (env : JobEnv) (store : List QRCodeDoc)
    (buffer e : String) (hrender : env.renderResult = .ok buffer)
    (hupload : env.uploadResult buffer = .error e) :
    (processJob env store).store = store := by
  simp [processJob, processTry, hrender, hupload]

/-- Witness for C2: a rejecting uploader leaves the one-document
collection as it was. -/
theorem upload_failure_persists_no_record_witness :
    (processJob
      { freshUuid := "u1"
        renderResult := .ok "buf"
        uploadResult := fun _ => .error "UploadError"
        saveOk := true } [newQRCodeModel "a" "url"]).store
      = [newQRCodeModel "a" "url"] :=
  upload_failure_persists_no_record _ _ "buf" "UploadError" rfl rfl

/-- C5 (code-bug evidence): with a rejecting uploader, the `catch` clause
swallows the error — the job's promise resolves with `undefined`
(`resolvedValue = none`, `rejectedWith = none`), so the job outcome looks
like a success with no result, and the only trace is a console line. -/
theorem upload_failure_job_resolves_with_no_result :
    processJob
      { freshUuid := "u1"
        renderResult := .ok "buf"
        uploadResult := fun _ => .error "UploadError"
        saveOk := true } []
      = { store := []
          resolvedValue := none
          rejectedWith := none
          consoleLog := ["UploadError"] } := rfl

/-- C6: `/activate` with an id matching no document returns 404 and
leaves the collection exactly as it was. -/
theorem activate_unknown_id_not_found (store : List QRCodeDoc)
    (id fn ln an : String) (hid : id ≠ "") (hfn : fn ≠ "") (hln : ln ≠ "")
    (han : an ≠ "") (hfind : findOneByUuid store id = none) :
    activate store id fn ln an = (store, .notFound) := by
  simp [activate, hid, hfn, hln, han, hfind]

/-- Witness for C6: activating id "b" over a collection holding only "a". -/
theorem activate_unknown_id_not_found_witness :
    activate [newQRCodeModel "a" "url"] "b" "John" "Doe" "111"
      = ([newQRCodeModel "a" "url"], ActivateResponse.notFound) :=
  activate_unknown_id_not_found [newQRCodeModel "a" "url"] "b" "John" "Doe" "111"
    (by decide) (by decide) (by decide) (by decide) (by decide)

/-- With all fields truthy and the id found, `/activate` responds success
and applies the update to the found document. -/
theorem activate_found (store : List QRCodeDoc) (id fn ln an : String)
    (hid : id ≠ "") (hfn : fn ≠ "") (hln : ln ≠ "") (han : an ≠ "")
    (r : QRCodeDoc) (hfind : findOneByUuid store id = some r) :
    activate store id fn ln an = (updateFirst id fn ln an store, .success) := by
  simp [activate, hid, hfn, hln, han, hfind]

/-- The activation update never touches `uuid` or `s3URL`, so `findOne`
still locates the same document afterwards, now updated. -/
theorem findOneByUuid_updateFirst (id fn ln an : String) :
    ∀ store : List QRCodeDoc,
      findOneByUuid (updateFirst id fn ln an store) id
        = (findOneByUuid store id).map (fun r => applyActivation r fn ln an)
  | [] => by simp [findOneByUuid, updateFirst]
  | r :: rs => by
    by_cases hr : r.uuid = id
    · simp [findOneByUuid, updateFirst, hr, applyActivation]
    · have ih := findOneByUuid_updateFirst id fn ln an rs
      simp only [findOneByUuid] at ih
      simp [findOneByUuid, updateFirst, hr, ih]

/-- A second activation update on the same id overwrites the first. -/
theorem updateFirst_updateFirst (id fn ln an fn2 ln2 an2 : String) :
    ∀ store : List QRCodeDoc,
      updateFirst id fn2 ln2 an2 (updateFirst id fn ln an store)
        = updateFirst id fn2 ln2 an2 store
  | [] => rfl
  | r :: rs => by
    by_cases hr : r.uuid = id
    · simp [updateFirst, hr, applyActivation]
    · simp [updateFirst, hr, updateFirst_updateFirst id fn ln an fn2 ln2 an2 rs]

/-- C3: double activation follows the overwrite policy consistently: both
calls succeed, the final state is exactly the second call's overwrite of
the identity fields, and when both calls supply the same fields the final
state is identical to the state after the first call (idempotent). -/
theorem activate_twice_consistent_overwrite (store : List QRCodeDoc)
    (id fn ln an fn2 ln2 an2 : String)
    (hid : id ≠ "") (hfn : fn ≠ "") (hln : ln ≠ "") (han : an ≠ "")
    (hfn2 : fn2 ≠ "") (hln2 : ln2 ≠ "") (han2 : an2 ≠ "")
    (r : QRCodeDoc) (hfind : findOneByUuid store id = some r) :
    (activate store id fn ln an).2 = .success
    ∧ (activate (activate store id fn ln an).1 id fn2 ln2 an2).2 = .success
    ∧ (activate (activate store id fn ln an).1 id fn2 ln2 an2).1
        = updateFirst id fn2 ln2 an2 store
    ∧ (fn2 = fn → ln2 = ln → an2 = an →
        (activate (activate store id fn ln an).1 id fn2 ln2 an2).1
          = (activate store id fn ln an).1) := by
  have h1 := activate_found store id fn ln an hid hfn hln han r hfind
  have hfind2 : findOneByUuid (updateFirst id fn ln an store) id
      = some (applyActivation r fn ln an) := by
    rw [findOneByUuid_updateFirst, hfind]
    rfl
  have h2 := activate_found (updateFirst id fn ln an store) id fn2 ln2 an2
    hid hfn2 hln2 han2 _ hfind2
  rw [h1]
  refine ⟨rfl, ?_, ?_, ?_⟩
  · simp [h2]
  · simp [h2, updateFirst_updateFirst]
  · intro e1 e2 e3
    subst e1; subst e2; subst e3
    simp [h2, updateFirst_updateFirst]

/-- Witness for C3: activating the same document twice with the same
fields; both calls succeed and the second changes nothing. -/
theorem activate_twice_consistent_overwrite_witness :
    (activate [newQRCodeModel "a" "url"] "a" "John" "Doe" "111").2 = .success
    ∧ (activate (activate [newQRCodeModel "a" "url"] "a" "John" "Doe" "111").1
        "a" "John" "Doe" "111").2 = .success
    ∧ (activate (activate [newQRCodeModel "a" "url"] "a" "John" "Doe" "111").1
        "a" "John" "Doe" "111").1
        = updateFirst "a" "John" "Doe" "111" [newQRCodeModel "a" "url"]
    ∧ ("John" = "John" → "Doe" = "Doe" → "111" = "111" →
        (activate (activate [newQRCodeModel "a" "url"] "a" "John" "Doe" "111").1
          "a" "John" "Doe" "111").1
          = (activate [newQRCodeModel "a" "url"] "a" "John" "Doe" "111").1) :=
  activate_twice_consistent_overwrite [newQRCodeModel "a" "url"] "a"
    "John" "Doe" "111" "John" "Doe" "111"
    (by decide) (by decide) (by decide) (by decide) (by decide) (by decide)
    (by decide) (newQRCodeModel "a" "url") (by decide)

/-- Pointwise: the activation update preserves `uuid` and `s3URL` of
every document in the collection. -/
theorem updateFirst_preserves_uuid_s3URL (id fn ln an : String) :
    ∀ store : List QRCodeDoc,
      List.Forall₂ (fun a b => a.uuid = b.uuid ∧ a.s3URL = b.s3URL)
        (updateFirst id fn ln an store) store
  | [] => List.Forall₂.nil
  | r :: rs => by
    by_cases hr : r.uuid = id
    · simp only [updateFirst, if_pos hr]
      exact List.Forall₂.cons ⟨rfl, rfl⟩ (List.forall₂_same.mpr (fun x _ => ⟨rfl, rfl⟩))
    · simp only [updateFirst, if_neg hr]
      exact List.Forall₂.cons ⟨rfl, rfl⟩ (updateFirst_preserves_uuid_s3URL id fn ln an rs)

/-- C9: `s3URL` (the image URL) and `uuid` are set at creation, and an
`/activate` request — the only operation that modifies existing
documents — leaves both fields of every document unchanged. -/
theorem activate_preserves_uuid_and_imageURL (store : List QRCodeDoc)
    (id fn ln an uuid s3URL : String) :
    (newQRCodeModel uuid s3URL).s3URL = s3URL
    ∧ (newQRCodeModel uuid s3URL).uuid = uuid
    ∧ List.Forall₂ (fun a b => a.uuid = b.uuid ∧ a.s3URL = b.s3URL)
        (activate store id fn ln an).1 store := by
  refine ⟨rfl, rfl, ?_⟩
  unfold activate
  split
  · exact List.forall₂_same.mpr (fun x _ => ⟨rfl, rfl⟩)
  · cases hfind : findOneByUuid store id with
    | none => exact List.forall₂_same.mpr (fun x _ => ⟨rfl, rfl⟩)
    | some r => exact updateFirst_preserves_uuid_s3URL id fn ln an store

/-- A freshly created document satisfies the identity invariant. -/
theorem identityInvariant_newQRCodeModel (uuid s3URL : String) :
    identityInvariant (newQRCodeModel uuid s3URL) := by
  simp [identityInvariant, newQRCodeModel]

/-- An activation update with a truthy first name yields an activated
document with a non-empty identity field, satisfying the invariant. -/
theorem identityInvariant_applyActivation (r : QRCodeDoc) (fn ln an : String)
    (hfn : fn ≠ "") : identityInvariant (applyActivation r fn ln an) := by
  simp [identityInvariant, applyActivation, hfn]

/-- The activation update preserves the identity invariant across the
collection, provided the written first name is non-empty. -/
theorem identityInvariant_updateFirst (id fn ln an : String) (hfn : fn ≠ "") :
    ∀ store : List QRCodeDoc, (∀ r ∈ store, identityInvariant r) →
      ∀ r ∈ updateFirst id fn ln an store, identityInvariant r
  | [] => by
    intro _ r hr
    simp [updateFirst] at hr
  | s :: rs => by
    intro hstore r hr
    simp only [updateFirst] at hr
    by_cases hs : s.uuid = id
    · rw [if_pos hs] at hr
      rcases List.mem_cons.mp hr with h | h
      · rw [h]
        exact identityInvariant_applyActivation s fn ln an hfn
      · exact hstore r (List.mem_cons_of_mem s h)
    · rw [if_neg hs] at hr
      rcases List.mem_cons.mp hr with h | h
      · rw [h]
        exact hstore s (List.mem_cons_self s rs)
      · exact identityInvariant_updateFirst id fn ln an hfn rs
          (fun x hx => hstore x (List.mem_cons_of_mem s hx)) r h

/-- An `/activate` request preserves the identity invariant across the
collection: it either rejects the request or writes all three non-empty
fields together with the flag. -/
theorem identityInvariant_activate (store : List QRCodeDoc) (id fn ln an : String)
    (hstore : ∀ r ∈ store, identityInvariant r) :
    ∀ r ∈ (activate store id fn ln an).1, identityInvariant r := by
  unfold activate
  split
  · intro r hr
    exact hstore r hr
  · next h =>
    cases hfind : findOneByUuid store id with
    | none =>
      intro r hr
      exact hstore r hr
    | some r0 =>
      have hfn : fn ≠ "" := fun he => h (Or.inr (Or.inl he))
      intro r hr
      exact identityInvariant_updateFirst id fn ln an hfn store hstore r hr

/-- Every mutating operation preserves the identity invariant. -/
theorem identityInvariant_applyOp (store : List QRCodeDoc) (op : StoreOp)
    (hstore : ∀ r ∈ store, identityInvariant r) :
    ∀ r ∈ applyOp store op, identityInvariant r := by
  cases op with
  | createDoc uuid s3URL =>
    intro r hr
    simp only [applyOp] at hr
    rcases List.mem_append.mp hr with h | h
    · exact hstore r h
    · rw [List.mem_singleton.mp h]
      exact identityInvariant_newQRCodeModel uuid s3URL
  | activateReq id fn ln an =>
    exact identityInvariant_activate store id fn ln an hstore
  | deleteAll =>
    intro r hr
    simp [applyOp] at hr

/-- The identity invariant holds along any operation sequence. -/
theorem identityInvariant_foldl :
    ∀ (ops : List StoreOp) (store : List QRCodeDoc),
      (∀ r ∈ store, identityInvariant r) →
      ∀ r ∈ ops.foldl applyOp store, identityInvariant r
  | [] => fun store h => by simpa using h
  | op :: ops => fun store h => by
    rw [List.foldl_cons]
    exact identityInvariant_foldl ops (applyOp store op)
      (identityInvariant_applyOp store op h)

/-- C4: every document reachable from the empty collection through
creation, activation and bulk deletion has its three identity fields all
empty exactly when `isActivated` is false: creation writes empty fields
with a false flag, and activation writes all three non-empty fields and
the flag in one update. -/
theorem identity_fields_iff_activated (ops : List StoreOp) (r : QRCodeDoc)
    (hr : r ∈ runOps ops) : identityInvariant r :=
  identityInvariant_foldl ops [] (by simp) r hr

/-- Witness for C4: the document reached by one creation and one
activation. -/
theorem identity_fields_iff_activated_witness :
    identityInvariant (applyActivation (newQRCodeModel "a" "url") "John" "Doe" "111") :=
  identity_fields_iff_activated
    [StoreOp.createDoc "a" "url", StoreOp.activateReq "a" "John" "Doe" "111"]
    (applyActivation (newQRCodeModel "a" "url") "John" "Doe" "111") (by decide)

end QRPay
